import Mathlib

/-!
Verification of the intelligent interruption handler
(`intelligent_interruption_handler.py`): a shallow embedding of the
`InterruptionHandler` class — its constructor, state tracker
(`set_state` / `is_speaking`) and the decision function
`should_interrupt` — together with theorems settling the spec's claims.
-/

namespace Interruption

/-- The agent state enumeration (`AgentState` in the source):
the agent is either speaking or silent. -/
inductive AgentState where
  | SPEAKING
  | SILENT
deriving DecidableEq, Repr

/-- `startsWithL pat s` : the character list `pat` is an initial segment
of the character list `s`. -/
def startsWithL : List Char → List Char → Bool
  | [], _ => true
  | _ :: _, [] => false
  | a :: as, b :: bs => a == b && startsWithL as bs

/-- `containsSubL pat s` : the character list `pat` occurs as a
contiguous sublist of `s`.  Models Python's `pat in s` on strings. -/
def containsSubL : List Char → List Char → Bool
  | pat, [] => startsWithL pat []
  | pat, c :: rest => startsWithL pat (c :: rest) || containsSubL pat rest

/-- Python's substring test `sub in s`. -/
def containsSub (sub s : String) : Bool :=
  containsSubL sub.data s.data

/-- ASCII lowercasing of one character, as Python's `str.lower` acts on
the ASCII range relevant to the keyword sets. -/
def lowerChar (c : Char) : Char :=
  if 65 ≤ c.toNat ∧ c.toNat ≤ 90 then Char.ofNat (c.toNat + 32) else c

/-- Python's `s.lower()` character by character. -/
def pyLower (s : String) : String :=
  String.mk (s.data.map lowerChar)

/-- Drop leading whitespace characters. -/
def dropLeadingWs : List Char → List Char
  | [] => []
  | c :: cs => if c.isWhitespace then dropLeadingWs cs else c :: cs

/-- Python's `s.strip()` : drop leading and trailing whitespace. -/
def pyStrip (s : String) : String :=
  String.mk (dropLeadingWs (dropLeadingWs s.data.reverse).reverse)

/-- Python's `s.lower().strip()` — the normalization step of
`should_interrupt` (line 80 of the source). -/
def normalizeInput (s : String) : String :=
  pyStrip (pyLower s)

/-- Accumulate maximal runs of non-whitespace characters; the first
argument is the reversed current run. -/
def tokensAux : List Char → List Char → List (List Char)
  | cur, [] => if cur.isEmpty then [] else [cur.reverse]
  | cur, c :: cs =>
    if c.isWhitespace then
      if cur.isEmpty then tokensAux [] cs else cur.reverse :: tokensAux [] cs
    else
      tokensAux (c :: cur) cs

/-- Python's `s.split()` : the maximal whitespace-free runs of `s`, in
order, with no empty pieces (line 81 of the source). -/
def pySplit (s : String) : List String :=
  (tokensAux [] s.data).map String.mk

/-- The default ignore list from `InterruptionHandler.__init__`
(lines 42–45 of the source). -/
def defaultIgnoreWords : List String :=
  ["yeah", "ok", "okay", "hmm", "uh-huh", "mhm",
   "right", "aha", "yep", "sure", "gotcha"]

/-- The fixed command set `interrupt_words` (lines 49–51 of the source). -/
def interruptWords : List String :=
  ["wait", "stop", "no", "hold", "pause", "hold on"]

/-- Python's `arg or default` for an optional list argument:
`None` and the empty list are falsy, so both select the default. -/
def pyOr (arg : Option (List String)) (default : List String) : List String :=
  match arg with
  | none => default
  | some l => if l.isEmpty then default else l

/-- The handler's state: the ignore set, the command set and the agent
state.  The Python sets are modelled as duplicate-free lists with
`List.contains` membership. -/
structure InterruptionHandler where
  ignore_words : List String
  interrupt_words : List String
  agent_state : AgentState
deriving DecidableEq, Repr

/-- `InterruptionHandler.__init__` (lines 33–55): install the ignore
words (`ignore_words or [defaults]`, collapsed to a set), the fixed
command set, and the default `SILENT` state. -/
def mkHandler (ignoreWords : Option (List String)) : InterruptionHandler :=
  { ignore_words := (pyOr ignoreWords defaultIgnoreWords).dedup
    interrupt_words := interruptWords
    agent_state := AgentState.SILENT }

/-- `InterruptionHandler.set_state` (lines 57–60): unconditional
overwrite of the agent state. -/
def set_state (h : InterruptionHandler) (state : AgentState) : InterruptionHandler :=
  { h with agent_state := state }

/-- `InterruptionHandler.is_speaking` (lines 62–64). -/
def is_speaking (h : InterruptionHandler) : Bool :=
  h.agent_state == AgentState.SPEAKING

/-- `InterruptionHandler.should_interrupt` (lines 66–106).  The input is
an `Option String` so that Python's `None` is representable; Python's
`if not user_input` is falsy for both `None` and `""`. -/
def should_interrupt (h : InterruptionHandler) (user_input : Option String) : Bool :=
  match user_input with
  | none => false
  | some s =>
    if s = "" then false
    else
      let normalized_input := normalizeInput s
      let words := pySplit normalized_input
      if !(is_speaking h) then true
      else if h.interrupt_words.any (fun word => containsSub word normalized_input) then
        true
      else if (words.filter (fun w => !(h.ignore_words.contains w))).isEmpty then
        false
      else
        true

/-- `should_interrupt` with the possible runtime failure made explicit:
`user_input.lower()` (line 80) would raise `AttributeError` on `None`,
which `pyLowerExc` models; the guard at line 76 prevents reaching it. -/
def pyLowerExc : Option String → Except String String
  | none => Except.error "AttributeError"
  | some s => Except.ok (pyLower s)

/-- Python truthiness of the argument of `should_interrupt`:
`not user_input` holds exactly for `None` and `""`. -/
def pyFalsy : Option String → Bool
  | none => true
  | some s => s == ""

/-- `should_interrupt` as an exception-aware computation: every place
the Python body could raise is an `Except.error`. -/
def should_interrupt_exc (h : InterruptionHandler) (user_input : Option String) :
    Except String Bool :=
  if pyFalsy user_input then Except.ok false
  else
    match pyLowerExc user_input with
    | Except.error e => Except.error e
    | Except.ok lowered =>
      let normalized_input := pyStrip lowered
      let words := pySplit normalized_input
      if !(is_speaking h) then Except.ok true
      else if h.interrupt_words.any (fun word => containsSub word normalized_input) then
        Except.ok true
      else if (words.filter (fun w => !(h.ignore_words.contains w))).isEmpty then
        Except.ok false
      else
        Except.ok true

/-- `should_interrupt` with the handler state threaded through
explicitly: each `return` site of the Python body yields the result
paired with the handler's state at that point.  The body only reads
`self`, so every site pairs with `h`. -/
def should_interrupt_st (h : InterruptionHandler) (user_input : Option String) :
    Bool × InterruptionHandler :=
  match user_input with
  | none => (false, h)
  | some s =>
    if s = "" then (false, h)
    else
      let normalized_input := normalizeInput s
      let words := pySplit normalized_input
      if !(is_speaking h) then (true, h)
      else if h.interrupt_words.any (fun word => containsSub word normalized_input) then
        (true, h)
      else if (words.filter (fun w => !(h.ignore_words.contains w))).isEmpty then
        (false, h)
      else
        (true, h)

/-! ### General lemmas about `should_interrupt` -/

/-- On `None` and on the empty string the decision is `false`,
whatever the handler. -/
theorem should_interrupt_falsy (h : InterruptionHandler) :
    should_interrupt h none = false ∧ should_interrupt h (some "") = false :=
  ⟨rfl, rfl⟩

/-- While the agent is silent, any non-empty input is actionable. -/
theorem silent_actionable_aux (h : InterruptionHandler) (s : String)
    (hst : h.agent_state = AgentState.SILENT) (hs : ¬ (s = "")) :
    should_interrupt h (some s) = true := by
  simp only [should_interrupt, if_neg hs, is_speaking, hst]
  rfl

/-- While the agent is speaking, the decision on a non-empty input is the
disjunction of the command-substring check and the
some-token-not-ignored check. -/
theorem speaking_eq_aux (h : InterruptionHandler) (s : String)
    (hst : h.agent_state = AgentState.SPEAKING) (hs : ¬ (s = "")) :
    should_interrupt h (some s) =
      (h.interrupt_words.any (fun word => containsSub word (normalizeInput s)) ||
       !((pySplit (normalizeInput s)).filter
           (fun w => !(h.ignore_words.contains w))).isEmpty) := by
  simp only [should_interrupt, if_neg hs, is_speaking, hst]
  cases hany : h.interrupt_words.any (fun word => containsSub word (normalizeInput s)) <;>
    cases hfil : ((pySplit (normalizeInput s)).filter
        (fun w => !(h.ignore_words.contains w))).isEmpty <;>
    simp [hany, hfil]

/-! ### Claim theorems -/

/-- C1 (counterexample): the claim says a whitespace-only utterance
returns `false` in every mode, but in `SILENT` mode `should_interrupt`
returns `true` on `"   "` (the falsy guard at line 76 only catches the
empty string, and the silent branch at line 84 fires before any content
check). -/
theorem C1_counterexample :
    should_interrupt (set_state (mkHandler none) AgentState.SILENT) (some "   ") = true := by
  decide

/-- C1 (amended): for every ignore-word configuration and every mode,
`should_interrupt` returns `false` on `None` and on the empty string;
on a whitespace-only string it returns `false` in `SPEAKING` mode but
`true` in `SILENT` mode. -/
theorem C1_empty_and_whitespace (cfg : Option (List String)) (st : AgentState) :
    should_interrupt (set_state (mkHandler cfg) st) none = false ∧
    should_interrupt (set_state (mkHandler cfg) st) (some "") = false ∧
    should_interrupt (set_state (mkHandler cfg) AgentState.SPEAKING) (some "   ") = false ∧
    should_interrupt (set_state (mkHandler cfg) AgentState.SILENT) (some "   ") = true := by
  refine ⟨rfl, rfl, ?_, ?_⟩
  · rw [speaking_eq_aux _ _ rfl (by decide)]
    have hnorm : normalizeInput "   " = "" := by decide
    have hiw : (set_state (mkHandler cfg) AgentState.SPEAKING).interrupt_words
        = interruptWords := rfl
    have hsp : pySplit "" = ([] : List String) := rfl
    rw [hnorm, hiw, hsp]
    simp only [List.filter_nil, List.isEmpty_nil, Bool.not_true, Bool.or_false]
    decide
  · exact silent_actionable_aux _ _ rfl (by decide)

/-- C4: while the agent is silent any non-empty input is actionable,
for any handler whatever its ignore and command sets — so those sets
are never consulted in `SILENT` mode. -/
theorem C4_silent_always_true (h : InterruptionHandler) (s : String)
    (hst : h.agent_state = AgentState.SILENT) (hs : s ≠ "") :
    should_interrupt h (some s) = true :=
  silent_actionable_aux h s hst hs

/-- C4 (witness): the default handler is silent and `"yeah"` is
actionable there. -/
theorem C4_silent_always_true_witness :
    should_interrupt (mkHandler none) (some "yeah") = true :=
  C4_silent_always_true (mkHandler none) "yeah" rfl (by decide)

/-- C8: `should_interrupt` leaves the handler untouched: in the
state-threaded embedding the handler component of the result is the
input handler, so the mode, the ignore set and the command set are
unchanged. -/
theorem C8_state_unchanged (h : InterruptionHandler) (inp : Option String) :
    (should_interrupt_st h inp).2 = h := by
  cases inp with
  | none => rfl
  | some s =>
    simp only [should_interrupt_st]
    split <;> first | rfl | (split <;> first | rfl | (split <;> first | rfl | (split <;> rfl)))

/-- C9: a freshly constructed handler is not speaking (default mode
`SILENT`), and after `set_state SPEAKING` then `set_state SILENT` the
handler is not speaking: the later write overwrites the earlier one. -/
theorem C9_state_roundtrip (cfg : Option (List String)) (h : InterruptionHandler) :
    is_speaking (mkHandler cfg) = false ∧
    is_speaking (set_state (set_state h AgentState.SPEAKING) AgentState.SILENT) = false :=
  ⟨rfl, rfl⟩

/-- C10: constructing with the empty ignore list installs the defaults,
exactly as omitting the argument does (`ignore_words or [...]` treats
`[]` as falsy), so an empty ignore set cannot be configured. -/
theorem C10_empty_list_means_defaults :
    mkHandler (some []) = mkHandler none ∧ (mkHandler (some [])).ignore_words ≠ [] := by
  decide

/-- C2: while speaking, if the normalized utterance contains any
command-set string as a substring, the decision is `true`, whatever the
ignore-word configuration and whatever the rest of the utterance. -/
theorem C2_command_substring_wins (cfg : Option (List String)) (s : String)
    (hw : ∃ w ∈ interruptWords, containsSub w (normalizeInput s) = true) :
    should_interrupt (set_state (mkHandler cfg) AgentState.SPEAKING) (some s) = true := by
  obtain ⟨w, hmem, hsub⟩ := hw
  have hs : ¬ (s = "") := by
    intro h
    have hnone : ∀ w ∈ interruptWords, containsSub w (normalizeInput "") = false := by
      decide
    rw [h] at hsub
    rw [hnone w hmem] at hsub
    exact Bool.false_ne_true hsub
  rw [speaking_eq_aux _ _ rfl hs]
  have hany : (set_state (mkHandler cfg) AgentState.SPEAKING).interrupt_words.any
      (fun word => containsSub word (normalizeInput s)) = true :=
    List.any_eq_true.mpr ⟨w, hmem, hsub⟩
  rw [hany, Bool.true_or]

/-- C2 (witness): `"yeah okay but wait"` contains the command `"wait"`,
and the default speaking handler interrupts on it. -/
theorem C2_command_substring_wins_witness :
    (∃ w ∈ interruptWords,
        containsSub w (normalizeInput "yeah okay but wait") = true) ∧
    should_interrupt (set_state (mkHandler none) AgentState.SPEAKING)
        (some "yeah okay but wait") = true :=
  ⟨⟨"wait", by decide, by decide⟩,
    C2_command_substring_wins none "yeah okay but wait" ⟨"wait", by decide, by decide⟩⟩

/-- C3 (counterexample): with the ignore set configured as `["no"]`, the
utterance `"no"` consists solely of ignore-set tokens, yet the speaking
handler returns `true`: the command-substring check (line 91) runs
before the ignore check and `"no"` is a command word. -/
theorem C3_counterexample :
    (∀ w ∈ pySplit (normalizeInput "no"),
        (mkHandler (some ["no"])).ignore_words.contains w = true) ∧
    should_interrupt (set_state (mkHandler (some ["no"])) AgentState.SPEAKING)
        (some "no") = true := by
  decide

/-- C3 (amended): while speaking, if every token of the normalized
utterance is in the ignore set AND the normalized utterance contains no
command-set substring, the decision is `false`. -/
theorem C3_pure_filler_ignored (cfg : Option (List String)) (s : String)
    (hall : ∀ w ∈ pySplit (normalizeInput s),
        (mkHandler cfg).ignore_words.contains w = true)
    (hnc : ∀ w ∈ interruptWords, containsSub w (normalizeInput s) = false) :
    should_interrupt (set_state (mkHandler cfg) AgentState.SPEAKING) (some s) = false := by
  by_cases hs : s = ""
  · subst hs; rfl
  · rw [speaking_eq_aux _ _ rfl hs]
    have hany : (set_state (mkHandler cfg) AgentState.SPEAKING).interrupt_words.any
        (fun word => containsSub word (normalizeInput s)) = false := by
      rw [List.any_eq_false]
      intro w hw
      simp [hnc w hw]
    have hfil : (pySplit (normalizeInput s)).filter
        (fun w => !((set_state (mkHandler cfg) AgentState.SPEAKING).ignore_words.contains w))
        = [] := by
      rw [List.filter_eq_nil_iff]
      intro w hw
      have h1 : (set_state (mkHandler cfg) AgentState.SPEAKING).ignore_words.contains w
          = true := hall w hw
      simp only [h1, Bool.not_true]
      exact Bool.false_ne_true
    rw [hany, hfil]
    rfl

/-- C3 (witness): `"yeah okay"` is pure filler for the default ignore
set, contains no command substring, and is ignored while speaking. -/
theorem C3_pure_filler_ignored_witness :
    (∀ w ∈ pySplit (normalizeInput "yeah okay"),
        (mkHandler none).ignore_words.contains w = true) ∧
    (∀ w ∈ interruptWords, containsSub w (normalizeInput "yeah okay") = false) ∧
    should_interrupt (set_state (mkHandler none) AgentState.SPEAKING)
        (some "yeah okay") = false :=
  ⟨by decide, by decide,
    C3_pure_filler_ignored none "yeah okay" (by decide) (by decide)⟩

/-- C5: while speaking, if the normalized utterance contains no
command-set substring but some token is not in the ignore set, the
decision is `true`. -/
theorem C5_substantive_interrupts (cfg : Option (List String)) (s : String)
    (hnc : ∀ w ∈ interruptWords, containsSub w (normalizeInput s) = false)
    (hex : ∃ w ∈ pySplit (normalizeInput s),
        (mkHandler cfg).ignore_words.contains w = false) :
    should_interrupt (set_state (mkHandler cfg) AgentState.SPEAKING) (some s) = true := by
  obtain ⟨w, hw, hnot⟩ := hex
  have hs : ¬ (s = "") := by
    intro h
    rw [h] at hw
    have hempty : pySplit (normalizeInput "") = [] := rfl
    rw [hempty] at hw
    exact absurd hw (List.not_mem_nil w)
  rw [speaking_eq_aux _ _ rfl hs]
  have hmemfil : w ∈ (pySplit (normalizeInput s)).filter
      (fun x => !((set_state (mkHandler cfg) AgentState.SPEAKING).ignore_words.contains x)) :=
    List.mem_filter.mpr ⟨hw, by
      have h1 : (set_state (mkHandler cfg) AgentState.SPEAKING).ignore_words.contains w
          = false := hnot
      simp only [h1, Bool.not_false]⟩
  have hfil : ((pySplit (normalizeInput s)).filter
      (fun x => !((set_state (mkHandler cfg) AgentState.SPEAKING).ignore_words.contains x))).isEmpty
      = false := by
    cases hcase : (pySplit (normalizeInput s)).filter
        (fun x => !((set_state (mkHandler cfg) AgentState.SPEAKING).ignore_words.contains x)) with
    | nil => rw [hcase] at hmemfil; exact absurd hmemfil (List.not_mem_nil w)
    | cons a l => rfl
  rw [hfil]
  simp

/-- C5 (witness): `"okay tell me more"` has no command substring, the
token `"tell"` is not in the default ignore set, and the default
speaking handler interrupts on it. -/
theorem C5_substantive_interrupts_witness :
    (∀ w ∈ interruptWords,
        containsSub w (normalizeInput "okay tell me more") = false) ∧
    (∃ w ∈ pySplit (normalizeInput "okay tell me more"),
        (mkHandler none).ignore_words.contains w = false) ∧
    should_interrupt (set_state (mkHandler none) AgentState.SPEAKING)
        (some "okay tell me more") = true :=
  ⟨by decide, ⟨"tell", by decide, by decide⟩,
    C5_substantive_interrupts none "okay tell me more" (by decide)
      ⟨"tell", by decide, by decide⟩⟩

/-- C6 (counterexample): the constructor does not lowercase configured
ignore words: with `["YEAH"]` the stored entry is `"YEAH"`, which is not
lowercase, and the speaking handler fails to suppress the utterance
`"YEAH"` (it is lowercased to `"yeah"`, which is not in the set). -/
theorem C6_counterexample :
    "YEAH" ∈ (mkHandler (some ["YEAH"])).ignore_words ∧
    pyLower "YEAH" ≠ "YEAH" ∧
    should_interrupt (set_state (mkHandler (some ["YEAH"])) AgentState.SPEAKING)
        (some "YEAH") = true := by
  decide

/-- C6 (amended): every default ignore word is lowercase, and default
ignore matching is case-insensitive (uppercase `"YEAH"` is suppressed);
but custom ignore words are stored as given, so a configuration can
place a non-lowercase string in the ignore set. -/
theorem C6_lowercase_defaults_only :
    (∀ w ∈ (mkHandler none).ignore_words, pyLower w = w) ∧
    should_interrupt (set_state (mkHandler none) AgentState.SPEAKING)
        (some "YEAH") = false ∧
    (∃ l, ∃ w ∈ (mkHandler (some l)).ignore_words, pyLower w ≠ w) :=
  ⟨by decide, by decide, ⟨["YEAH"], "YEAH", by decide, by decide⟩⟩

/-- C7: the exception-aware embedding of `should_interrupt` returns
`Except.ok` on every handler and every input, including `None`, the
empty string and whitespace-only strings: the decision is always a
defined boolean and never an exception. -/
theorem C7_never_raises (h : InterruptionHandler) (inp : Option String) :
    ∃ b : Bool, should_interrupt_exc h inp = Except.ok b := by
  cases inp with
  | none => exact ⟨false, rfl⟩
  | some s =>
    by_cases hs : s = ""
    · subst hs; exact ⟨false, rfl⟩
    · have hf : pyFalsy (some s) = false := by
        simp [pyFalsy, hs]
      simp only [should_interrupt_exc, hf, Bool.false_eq_true, if_false, pyLowerExc]
      split
      · exact ⟨true, rfl⟩
      · split
        · exact ⟨true, rfl⟩
        · split
          · exact ⟨false, rfl⟩
          · exact ⟨true, rfl⟩

end Interruption
